import Mathlib

/-!
Shallow embedding of `pytest_django_test/db_helpers.py`.

The Python module shells out to database clients, touches the file system,
and talks to an embedded sqlite database.  Those external effects are
modelled by oracles carried in an `Env` record:

* `popen`          : result of `subprocess.Popen(args).communicate()/wait()`;
* `path_exists`    : `os.path.exists`;
* `sqlite_execute` : outcome of `sqlite3.connect(db).execute(sql)`.

Each helper returns the list of external actions it performed together with
an `Except Err` result; a raised Python exception is the `Except.error`
case.  A bare Python `assert cond` raises `AssertionError` with an empty
message, modelled as `Err.assertionError ""`; `assert cond, msg` carries
`msg`.  Python truthiness of an optional string argument (`None` and `''`
are falsy) is `truthyOpt`.
-/

/-- Result of `communicate()`/`wait()` on a `subprocess.Popen` object:
the process exit status and the captured output streams. -/
structure PopenResult where
  wait_ret : Int
  stdoutdata : String
  stderrdata : String
deriving Repr, DecidableEq

/-- The `CmdResult` class of `db_helpers.py`. -/
structure CmdResult where
  status_code : Int
  std_out : String
  std_err : String
deriving Repr, DecidableEq

/-- An external side effect performed by a helper. -/
inductive DbAction where
  | runCmd (args : List String)
  | unlink (path : String)
  | sqliteExec (dbName sql : String)
deriving Repr, DecidableEq

/-- Outcome of `sqlite3.Connection.execute`: success, an
`sqlite3.OperationalError`, or some other exception. -/
inductive SqliteOutcome where
  | ok
  | operationalError
  | otherError
deriving Repr, DecidableEq

/-- A Python exception escaping one of the helpers. -/
inductive Err where
  | assertionError (msg : String)
  | sqlite3OperationalError
  | sqlite3Error
  | multipleObjectsReturned
deriving Repr, DecidableEq

/-- Ambient configuration and effect oracles for one call:
Django settings (`ENGINE`, the computed `TEST_DB_NAME`, the mysql `USER`)
and the responses of the outside world. -/
structure Env where
  engine_setting : String
  test_db_name : String
  mysql_user : Option String
  popen : List String → PopenResult
  path_exists : String → Bool
  sqlite_execute : String → String → SqliteOutcome

/-- Python truthiness of an optional string (`None` and `''` are falsy). -/
def truthyOpt : Option String → Bool
  | some s => s != ""
  | none => false

/-- Does `pat` occur as a contiguous run inside the character list?
Structural recursion so that concrete instances evaluate. -/
def containsSubstrChars (pat : List Char) : List Char → Bool
  | [] => pat.isEmpty
  | c :: cs => pat.isPrefixOf (c :: cs) || containsSubstrChars pat cs

/-- `'pat' in hay` on Python strings: substring containment. -/
def containsSubstr (hay pat : String) : Bool :=
  containsSubstrChars pat.data hay.data

/-- `str.split(sep)` for a single-character separator, on character
lists: splitting an empty string yields one empty part, and each
occurrence of `sep` starts a new part. -/
def splitOnChar (sep : Char) : List Char → List (List Char)
  | [] => [[]]
  | c :: cs =>
    let rest := splitOnChar sep cs
    if c = sep then [] :: rest
    else
      match rest with
      | [] => [[c]]
      | r :: rs => (c :: r) :: rs

/-- `parts[-1]` on the (always nonempty) result of a split. -/
def lastComponent : List (List Char) → List Char
  | [] => []
  | [x] => x
  | _ :: xs => lastComponent xs

/-- `force_text` from `.compat`: decodes bytes to text; the embedding
works with `String` throughout, so it is the identity. -/
def force_text (s : String) : String := s

/-- `get_db_engine()`: last dot-separated component of
`settings.DATABASES['default']['ENGINE']`. -/
def get_db_engine (env : Env) : String :=
  String.mk (lastComponent (splitOnChar '.' env.engine_setting.data))

/-- `run_cmd(*args)` (named `runCmd` here since `run_cmd` is a Lean command): spawn the process, collect output and exit status
into a `CmdResult`.  Also returns the action performed. -/
def runCmd (env : Env) (args : List String) : List DbAction × CmdResult :=
  let r := env.popen args
  ([DbAction.runCmd args], CmdResult.mk r.wait_ret r.stdoutdata r.stderrdata)

/-- `run_mysql(*args)`: prepend `-u USER` when a user is configured and
truthy, then invoke the `mysql` client via `runCmd`. -/
def run_mysql (env : Env) (args : List String) : List DbAction × CmdResult :=
  let args := match env.mysql_user with
    | some user => if user != "" then ["-u", user] ++ args else args
    | none => args
  runCmd env ("mysql" :: args)

/-- `drop_database(name=TEST_DB_NAME, suffix=None)`. -/
def drop_database (env : Env) (name : String := env.test_db_name)
    (suffix : Option String := none) : List DbAction × Except Err Unit :=
  if !(Bool.xor (name != "") (truthyOpt suffix)) then
    ([], .error (.assertionError "name and suffix cannot be used together"))
  else
    let name := if truthyOpt suffix then name ++ "_" ++ suffix.getD "" else name
    if get_db_engine env = "postgresql_psycopg2" then
      let (acts, r) := runCmd env ["psql", "postgres", "-c", "DROP DATABASE " ++ name]
      if containsSubstr (force_text r.std_out) "DROP DATABASE" ||
          containsSubstr (force_text r.std_err) "does not exist" then
        (acts, .ok ())
      else
        (acts, .error (.assertionError ""))
    else if get_db_engine env = "mysql" then
      let (acts, r) := run_mysql env ["-e", "DROP DATABASE " ++ name]
      if containsSubstr (force_text r.std_err) "database doesn\x27t exist" ||
          r.status_code == 0 then
        (acts, .ok ())
      else
        (acts, .error (.assertionError ""))
    else if get_db_engine env = "sqlite3" then
      if name = ":memory:" then
        ([], .error (.assertionError "sqlite in-memory database cannot be dropped!"))
      else if env.path_exists name then
        ([DbAction.unlink name], .ok ())
      else
        ([], .ok ())
    else
      ([], .error (.assertionError (get_db_engine env ++ " cannot be tested properly!")))

/-- `db_exists(db_suffix=None)`. -/
def db_exists (env : Env) (db_suffix : Option String := none) :
    List DbAction × Except Err Bool :=
  let name := env.test_db_name
  let name := if truthyOpt db_suffix then name ++ "_" ++ db_suffix.getD "" else name
  if get_db_engine env = "postgresql_psycopg2" then
    let (acts, r) := runCmd env ["psql", name, "-c", "SELECT 1"]
    (acts, .ok (r.status_code == 0))
  else if get_db_engine env = "mysql" then
    let (acts, r) := run_mysql env [name, "-e", "SELECT 1"]
    (acts, .ok (r.status_code == 0))
  else if get_db_engine env = "sqlite3" then
    if env.test_db_name = ":memory:" then
      ([], .error (.assertionError
        "sqlite in-memory database cannot be checked for existence!"))
    else
      ([], .ok (env.path_exists name))
  else
    ([], .error (.assertionError (get_db_engine env ++ " cannot be tested properly!")))

/-- `mark_database()`: create the sentinel table `mark_table`. -/
def mark_database (env : Env) : List DbAction × Except Err Unit :=
  if get_db_engine env = "postgresql_psycopg2" then
    let (acts, r) := runCmd env ["psql", env.test_db_name, "-c", "CREATE TABLE mark_table();"]
    (acts, if r.status_code == 0 then .ok () else .error (.assertionError ""))
  else if get_db_engine env = "mysql" then
    let (acts, r) := run_mysql env [env.test_db_name, "-e", "CREATE TABLE mark_table(kaka int);"]
    (acts, if r.status_code == 0 then .ok () else .error (.assertionError ""))
  else if get_db_engine env = "sqlite3" then
    if env.test_db_name = ":memory:" then
      ([], .error (.assertionError "sqlite in-memory database cannot be marked!"))
    else
      ([DbAction.sqliteExec env.test_db_name "CREATE TABLE mark_table(kaka int);"],
        match env.sqlite_execute env.test_db_name "CREATE TABLE mark_table(kaka int);" with
        | .ok => .ok ()
        | .operationalError => .error .sqlite3OperationalError
        | .otherError => .error .sqlite3Error)
  else
    ([], .error (.assertionError (get_db_engine env ++ " cannot be tested properly!")))

/-- `mark_exists()`: check for the sentinel table `mark_table`. -/
def mark_exists (env : Env) : List DbAction × Except Err Bool :=
  if get_db_engine env = "postgresql_psycopg2" then
    let (acts, r) := runCmd env ["psql", env.test_db_name, "-c", "SELECT 1 FROM mark_table"]
    (acts, .ok (r.std_out != ""))
  else if get_db_engine env = "mysql" then
    let (acts, r) := run_mysql env [env.test_db_name, "-e", "SELECT 1 FROM mark_table"]
    (acts, .ok (r.status_code == 0))
  else if get_db_engine env = "sqlite3" then
    if env.test_db_name = ":memory:" then
      ([], .error (.assertionError "sqlite in-memory database cannot be checked for mark!"))
    else
      ([DbAction.sqliteExec env.test_db_name "SELECT 1 FROM mark_table"],
        match env.sqlite_execute env.test_db_name "SELECT 1 FROM mark_table" with
        | .ok => .ok true
        | .operationalError => .ok false
        | .otherError => .error .sqlite3Error)
  else
    ([], .error (.assertionError (get_db_engine env ++ " cannot be tested properly!")))

/-- Applying a performed action to the world: `os.unlink(p)` makes
`os.path.exists(p)` false afterwards; the other oracles are left as they
are (external database state is not tracked). -/
def apply_action (env : Env) : DbAction → Env
  | .unlink p =>
      { env with path_exists := fun q => if q = p then false else env.path_exists q }
  | _ => env

/-- Fold `apply_action` over a trace of actions. -/
def apply_actions (env : Env) (acts : List DbAction) : Env :=
  acts.foldl apply_action env

/-- The relevant attributes of the Django `connection` object:
whether `in_atomic_block` exists (newer Django) and its value. -/
structure Connection where
  has_in_atomic_block : Bool
  in_atomic_block : Bool
deriving Repr, DecidableEq

/-- `transaction.rollback()` inside the `commit_manually` block: when
transactions really work it restores the snapshot taken at the start of
the transaction; when they are no-ops it leaves the current rows. -/
def tx_rollback (txNoop : Bool) (snapshot current : List String) : List String :=
  if txNoop then current else snapshot

/-- `noop_transactions()`.  The `Item` table is the list of `name` values
of its rows; `txNoop` says whether transactions are no-ops on the legacy
path.  `Item.objects.create` appends a row, `Item.objects.get` raises
`DoesNotExist` on zero matches and `MultipleObjectsReturned` on more than
one, `item.delete()` removes the fetched row. -/
def noop_transactions (conn : Connection) (txNoop : Bool) (items : List String) :
    Except Err (Bool × List String) :=
  if conn.has_in_atomic_block then
    .ok (conn.in_atomic_block, items)
  else
    let items1 := items ++ ["transaction_noop_test"]
    let items2 := tx_rollback txNoop items items1
    match (items2.filter (fun n => n == "transaction_noop_test")).length with
    | 0 => .ok (false, items2)
    | 1 => .ok (true, items2.eraseP (fun n => n == "transaction_noop_test"))
    | _ => .error .multipleObjectsReturned

/-- A concrete configuration with an unsupported (oracle) engine. -/
def envOracle : Env where
  engine_setting := "django.db.backends.oracle"
  test_db_name := "test_db_inner"
  mysql_user := none
  popen := fun _ => ⟨0, "", ""⟩
  path_exists := fun _ => false
  sqlite_execute := fun _ _ => .ok

/-- A concrete sqlite in-memory configuration. -/
def envMem : Env where
  engine_setting := "django.db.backends.sqlite3"
  test_db_name := ":memory:"
  mysql_user := none
  popen := fun _ => ⟨0, "", ""⟩
  path_exists := fun _ => false
  sqlite_execute := fun _ _ => .ok

/-- A concrete postgres configuration whose commands succeed. -/
def envPg : Env where
  engine_setting := "django.db.backends.postgresql_psycopg2"
  test_db_name := "test_db_inner"
  mysql_user := none
  popen := fun _ => ⟨0, "1 row", ""⟩
  path_exists := fun _ => false
  sqlite_execute := fun _ _ => .ok

/-- A concrete postgres configuration where the target database is absent:
`psql` fails and reports `does not exist` on standard error. -/
def envPgMissing : Env where
  engine_setting := "django.db.backends.postgresql_psycopg2"
  test_db_name := "test_db_inner"
  mysql_user := none
  popen := fun _ => ⟨1, "", "ERROR:  database does not exist"⟩
  path_exists := fun _ => false
  sqlite_execute := fun _ _ => .ok

/-- A concrete sqlite file configuration: the database file
`test_db_inner` exists and embedded statements succeed. -/
def envSqlite : Env where
  engine_setting := "django.db.backends.sqlite3"
  test_db_name := "test_db_inner"
  mysql_user := none
  popen := fun _ => ⟨0, "", ""⟩
  path_exists := fun p => p == "test_db_inner"
  sqlite_execute := fun _ _ => .ok

/-- C7: `run_cmd` never raises on a failing external command: for every
argument list it returns (total function, no `Except`) a `CmdResult` whose
`status_code` is the process exit status and whose `std_out`/`std_err` are
the captured output streams. -/
theorem runCmd_surfaces_result (env : Env) (args : List String) :
    runCmd env args =
      ([DbAction.runCmd args],
        { status_code := (env.popen args).wait_ret,
          std_out := (env.popen args).stdoutdata,
          std_err := (env.popen args).stderrdata }) := rfl

/-- C8: `drop_database` requires exactly one of `name` and `suffix` to be
truthy: when both are truthy or both falsy it raises
`AssertionError('name and suffix cannot be used together')` before doing
anything (empty action trace). -/
theorem drop_database_name_suffix_exclusive (env : Env) (name : String)
    (suffix : Option String) (h : (name != "") = truthyOpt suffix) :
    drop_database env name suffix =
      ([], .error (.assertionError "name and suffix cannot be used together")) := by
  unfold drop_database
  simp [h]

/-- Witness for C8: passing a suffix while `name` keeps its truthy default
`TEST_DB_NAME` hits the assertion. -/
theorem drop_database_name_suffix_exclusive_witness :
    drop_database envPg envPg.test_db_name (some "abc") =
      ([], .error (.assertionError "name and suffix cannot be used together")) :=
  drop_database_name_suffix_exclusive envPg envPg.test_db_name (some "abc") (by decide)

/-- C2: for an engine that is none of `postgresql_psycopg2`, `mysql`,
`sqlite3`, each of the four operations raises
`AssertionError('<engine> cannot be tested properly!')` naming the engine,
with an empty action trace (no command and no file-system action).
`drop_database` is called with its defaults (a truthy `TEST_DB_NAME`). -/
theorem unsupported_engine_fails_fast (env : Env)
    (h1 : get_db_engine env ≠ "postgresql_psycopg2")
    (h2 : get_db_engine env ≠ "mysql")
    (h3 : get_db_engine env ≠ "sqlite3")
    (hname : env.test_db_name ≠ "") :
    drop_database env env.test_db_name none =
      ([], .error (.assertionError (get_db_engine env ++ " cannot be tested properly!"))) ∧
    db_exists env none =
      ([], .error (.assertionError (get_db_engine env ++ " cannot be tested properly!"))) ∧
    mark_database env =
      ([], .error (.assertionError (get_db_engine env ++ " cannot be tested properly!"))) ∧
    mark_exists env =
      ([], .error (.assertionError (get_db_engine env ++ " cannot be tested properly!"))) := by
  unfold drop_database db_exists mark_database mark_exists
  simp [h1, h2, h3, hname, truthyOpt]

/-- Witness for C2: the oracle engine is rejected by all four operations
with no action performed. -/
theorem unsupported_engine_fails_fast_witness :
    drop_database envOracle envOracle.test_db_name none =
      ([], .error (.assertionError "oracle cannot be tested properly!")) ∧
    db_exists envOracle none =
      ([], .error (.assertionError "oracle cannot be tested properly!")) ∧
    mark_database envOracle =
      ([], .error (.assertionError "oracle cannot be tested properly!")) ∧
    mark_exists envOracle =
      ([], .error (.assertionError "oracle cannot be tested properly!")) :=
  unsupported_engine_fails_fast envOracle (by decide) (by decide) (by decide) (by decide)

/-- C3: with the sqlite3 engine and `TEST_DB_NAME = ':memory:'`, each of
`drop_database` (called with its defaults), `db_exists`, `mark_database`
and `mark_exists` raises its descriptive `AssertionError` without
performing any action. -/
theorem sqlite_memory_fails_fast (env : Env)
    (heng : get_db_engine env = "sqlite3")
    (hmem : env.test_db_name = ":memory:") :
    drop_database env env.test_db_name none =
      ([], .error (.assertionError "sqlite in-memory database cannot be dropped!")) ∧
    db_exists env none =
      ([], .error (.assertionError "sqlite in-memory database cannot be checked for existence!")) ∧
    mark_database env =
      ([], .error (.assertionError "sqlite in-memory database cannot be marked!")) ∧
    mark_exists env =
      ([], .error (.assertionError "sqlite in-memory database cannot be checked for mark!")) := by
  unfold drop_database db_exists mark_database mark_exists
  simp [heng, hmem, truthyOpt]

/-- Witness for C3: concrete in-memory sqlite configuration. -/
theorem sqlite_memory_fails_fast_witness :
    drop_database envMem envMem.test_db_name none =
      ([], .error (.assertionError "sqlite in-memory database cannot be dropped!")) ∧
    db_exists envMem none =
      ([], .error (.assertionError "sqlite in-memory database cannot be checked for existence!")) ∧
    mark_database envMem =
      ([], .error (.assertionError "sqlite in-memory database cannot be marked!")) ∧
    mark_exists envMem =
      ([], .error (.assertionError "sqlite in-memory database cannot be checked for mark!")) :=
  sqlite_memory_fails_fast envMem (by decide) (by decide)

/-- C4: `db_exists(db_suffix)` returns a boolean existence check of the
possibly suffixed test database: postgres and mysql return whether the
client command issuing `SELECT 1` against that database exited with
status 0; the sqlite file backend returns whether a file exists at the
database path. -/
theorem db_exists_checks (env : Env) (ds : Option String) (name : String)
    (hname : name = if truthyOpt ds then env.test_db_name ++ "_" ++ ds.getD ""
      else env.test_db_name) :
    (get_db_engine env = "postgresql_psycopg2" →
      db_exists env ds =
        ([DbAction.runCmd ["psql", name, "-c", "SELECT 1"]],
          .ok ((runCmd env ["psql", name, "-c", "SELECT 1"]).2.status_code == 0))) ∧
    (get_db_engine env = "mysql" →
      db_exists env ds =
        ((run_mysql env [name, "-e", "SELECT 1"]).1,
          .ok ((run_mysql env [name, "-e", "SELECT 1"]).2.status_code == 0))) ∧
    (get_db_engine env = "sqlite3" → env.test_db_name ≠ ":memory:" →
      db_exists env ds = ([], .ok (env.path_exists name))) := by
  subst hname
  refine ⟨fun h => ?_, fun h => ?_, fun h hm => ?_⟩
  · unfold db_exists
    simp [h, runCmd]
  · unfold db_exists
    simp [h, run_mysql, runCmd]
  · unfold db_exists
    simp [h, hm]

/-- Witness for C4: on the concrete postgres configuration (commands exit
with status 0) `db_exists` runs `psql test_db_inner -c "SELECT 1"` and
returns `True`. -/
theorem db_exists_checks_witness :
    db_exists envPg none =
      ([DbAction.runCmd ["psql", "test_db_inner", "-c", "SELECT 1"]], .ok true) :=
  (db_exists_checks envPg none "test_db_inner" rfl).1 (by decide)

/-- C5: `mark_database` creates the sentinel table `mark_table` in the
test database — via `psql` for postgres, the `mysql` client for mysql, an
embedded sqlite statement for the sqlite file backend — and for the two
command-line backends it succeeds exactly when the command exited with
status 0 (otherwise the bare `assert` raises). -/
theorem mark_database_creates_sentinel (env : Env) :
    (get_db_engine env = "postgresql_psycopg2" →
      (mark_database env).1 =
        [DbAction.runCmd ["psql", env.test_db_name, "-c", "CREATE TABLE mark_table();"]] ∧
      ((mark_database env).2 = .ok () ↔
        (runCmd env ["psql", env.test_db_name, "-c",
          "CREATE TABLE mark_table();"]).2.status_code = 0)) ∧
    (get_db_engine env = "mysql" →
      (mark_database env).1 =
        (run_mysql env [env.test_db_name, "-e", "CREATE TABLE mark_table(kaka int);"]).1 ∧
      ((mark_database env).2 = .ok () ↔
        (run_mysql env [env.test_db_name, "-e",
          "CREATE TABLE mark_table(kaka int);"]).2.status_code = 0)) ∧
    (get_db_engine env = "sqlite3" → env.test_db_name ≠ ":memory:" →
      (mark_database env).1 =
        [DbAction.sqliteExec env.test_db_name "CREATE TABLE mark_table(kaka int);"] ∧
      ((mark_database env).2 = .ok () ↔
        env.sqlite_execute env.test_db_name "CREATE TABLE mark_table(kaka int);" =
          SqliteOutcome.ok)) := by
  refine ⟨fun h => ?_, fun h => ?_, fun h hm => ?_⟩
  · unfold mark_database
    by_cases h0 :
        (env.popen ["psql", env.test_db_name, "-c", "CREATE TABLE mark_table();"]).wait_ret = 0 <;>
      simp [h, runCmd, h0]
  · unfold mark_database
    rcases hrm : run_mysql env [env.test_db_name, "-e", "CREATE TABLE mark_table(kaka int);"]
      with ⟨acts, r⟩
    by_cases h0 : r.status_code = 0 <;> simp [h, hrm, h0]
  · unfold mark_database
    cases hx : env.sqlite_execute env.test_db_name "CREATE TABLE mark_table(kaka int);" <;>
      simp [h, hm, hx]

/-- Witness for C5: the concrete postgres configuration performs exactly
the `CREATE TABLE mark_table();` command and succeeds. -/
theorem mark_database_creates_sentinel_witness :
    (mark_database envPg).1 =
      [DbAction.runCmd ["psql", "test_db_inner", "-c", "CREATE TABLE mark_table();"]] ∧
    (mark_database envPg).2 = Except.ok () := by
  have h := (mark_database_creates_sentinel envPg).1 (by decide)
  exact ⟨h.1, h.2.mpr (by decide)⟩

/-- C6: `mark_exists` reports presence of the sentinel table
`mark_table`: postgres returns whether the `SELECT 1 FROM mark_table`
command produced nonempty standard output, mysql returns whether that
command exited with status 0, and the sqlite file backend returns `True`
when the embedded `SELECT 1 FROM mark_table` completes and `False` when
it raises `sqlite3.OperationalError`. -/
theorem mark_exists_checks_sentinel (env : Env) :
    (get_db_engine env = "postgresql_psycopg2" →
      mark_exists env =
        ([DbAction.runCmd ["psql", env.test_db_name, "-c", "SELECT 1 FROM mark_table"]],
          .ok ((runCmd env ["psql", env.test_db_name, "-c",
            "SELECT 1 FROM mark_table"]).2.std_out != ""))) ∧
    (get_db_engine env = "mysql" →
      mark_exists env =
        ((run_mysql env [env.test_db_name, "-e", "SELECT 1 FROM mark_table"]).1,
          .ok ((run_mysql env [env.test_db_name, "-e",
            "SELECT 1 FROM mark_table"]).2.status_code == 0))) ∧
    (get_db_engine env = "sqlite3" → env.test_db_name ≠ ":memory:" →
      (env.sqlite_execute env.test_db_name "SELECT 1 FROM mark_table" = SqliteOutcome.ok →
        (mark_exists env).2 = .ok true) ∧
      (env.sqlite_execute env.test_db_name "SELECT 1 FROM mark_table" =
          SqliteOutcome.operationalError →
        (mark_exists env).2 = .ok false)) := by
  refine ⟨fun h => ?_, fun h => ?_, fun h hm => ⟨fun hx => ?_, fun hx => ?_⟩⟩
  · unfold mark_exists
    simp [h, runCmd]
  · unfold mark_exists
    rcases hrm : run_mysql env [env.test_db_name, "-e", "SELECT 1 FROM mark_table"]
      with ⟨acts, r⟩
    simp [h, hrm]
  · unfold mark_exists
    simp [h, hm, hx]
  · unfold mark_exists
    simp [h, hm, hx]

/-- Witness for C6: on the concrete sqlite file configuration (embedded
statements succeed, so the sentinel is present) `mark_exists` returns
`True`. -/
theorem mark_exists_checks_sentinel_witness :
    (mark_exists envSqlite).2 = Except.ok true :=
  ((mark_exists_checks_sentinel envSqlite).2.2 (by decide) (by decide)).1 (by decide)

/-- `apply_action` never touches the engine setting, so the detected
engine is stable under performed actions. -/
theorem get_db_engine_apply_action (env : Env) (a : DbAction) :
    get_db_engine (apply_action env a) = get_db_engine env := by
  cases a <;> rfl

/-- C9: `drop_database` tolerates a missing target on every supported
backend: postgres accepts `does not exist` on standard error, mysql
accepts `database doesn't exist` on standard error, and the sqlite file
backend always succeeds — unlinking only an existing file — so that a
second drop in the resulting world also succeeds and performs no action. -/
theorem drop_database_missing_target_ok (env : Env) (name : String) (hname : name ≠ "") :
    (get_db_engine env = "postgresql_psycopg2" →
      containsSubstr (runCmd env ["psql", "postgres", "-c",
        "DROP DATABASE " ++ name]).2.std_err "does not exist" = true →
      (drop_database env name none).2 = .ok ()) ∧
    (get_db_engine env = "mysql" →
      containsSubstr (run_mysql env ["-e",
        "DROP DATABASE " ++ name]).2.std_err "database doesn\x27t exist" = true →
      (drop_database env name none).2 = .ok ()) ∧
    (get_db_engine env = "sqlite3" → name ≠ ":memory:" →
      (drop_database env name none).2 = .ok () ∧
      drop_database (apply_actions env (drop_database env name none).1) name none =
        ([], .ok ())) := by
  refine ⟨fun h herr => ?_, fun h herr => ?_, fun h hm => ?_⟩
  · simp only [containsSubstr, runCmd, force_text] at herr
    unfold drop_database
    simp [truthyOpt, hname, h, runCmd, containsSubstr, force_text, herr]
  · simp only [containsSubstr, force_text] at herr
    unfold drop_database
    simp [truthyOpt, hname, h, containsSubstr, force_text, herr]
  · by_cases hp : env.path_exists name
    · have h1 : drop_database env name none = ([DbAction.unlink name], .ok ()) := by
        unfold drop_database
        simp [truthyOpt, hname, h, hm, hp]
      have hp2 : (apply_action env (DbAction.unlink name)).path_exists name = false := by
        simp [apply_action]
      refine ⟨by rw [h1], ?_⟩
      rw [h1]
      show drop_database (apply_action env (DbAction.unlink name)) name none = ([], .ok ())
      unfold drop_database
      simp [truthyOpt, hname, hm, hp2, get_db_engine_apply_action, h]
    · have h1 : drop_database env name none = ([], .ok ()) := by
        unfold drop_database
        simp [truthyOpt, hname, h, hm, hp]
      rw [h1]
      exact ⟨rfl, h1⟩

/-- Witness for C9: on the concrete sqlite file configuration the drop
succeeds, and dropping again in the resulting world also succeeds with no
action. -/
theorem drop_database_missing_target_ok_witness :
    (drop_database envSqlite "test_db_inner" none).2 = Except.ok () ∧
    drop_database (apply_actions envSqlite (drop_database envSqlite "test_db_inner" none).1)
      "test_db_inner" none = ([], Except.ok ()) :=
  (drop_database_missing_target_ok envSqlite "test_db_inner" (by decide)).2.2
    (by decide) (by decide)

/-- When no row is named `transaction_noop_test`, filtering the table for
that name yields nothing. -/
theorem filter_probe_eq_nil (items : List String)
    (hfresh : "transaction_noop_test" ∉ items) :
    items.filter (fun n => n == "transaction_noop_test") = [] := by
  induction items with
  | nil => rfl
  | cons a as ih =>
    have ha : a ≠ "transaction_noop_test" := fun hEq => hfresh (hEq ▸ List.mem_cons_self a as)
    have has : "transaction_noop_test" ∉ as := fun hmem => hfresh (List.mem_cons_of_mem a hmem)
    have hb : (a == "transaction_noop_test") = false := beq_eq_false_iff_ne.mpr ha
    simp [List.filter, hb, ih has]

/-- C1: on the legacy write/rollback path (no `in_atomic_block`
attribute), starting from a table without the probe row,
`noop_transactions` returns normally and its boolean is `True` exactly
when the probe row is still visible after the rollback. -/
theorem noop_transactions_probe (conn : Connection) (txNoop : Bool) (items : List String)
    (hleg : conn.has_in_atomic_block = false)
    (hfresh : "transaction_noop_test" ∉ items) :
    ∃ r, noop_transactions conn txNoop items = .ok r ∧
      (r.1 = true ↔
        "transaction_noop_test" ∈
          tx_rollback txNoop items (items ++ ["transaction_noop_test"])) := by
  unfold noop_transactions
  rw [hleg]
  have hf := filter_probe_eq_nil items hfresh
  cases txNoop
  · refine ⟨(false, items), ?_, ?_⟩
    · simp [tx_rollback, hf]
    · simp [tx_rollback, hfresh]
  · refine ⟨(true, (items ++ ["transaction_noop_test"]).eraseP
      (fun n => n == "transaction_noop_test")), ?_, ?_⟩
    · simp [tx_rollback, List.filter_append, hf]
    · simp [tx_rollback]

/-- Witness for C1: legacy path, empty table, transactions disabled. -/
theorem noop_transactions_probe_witness :
    ∃ r, noop_transactions ⟨false, false⟩ true [] = .ok r ∧
      (r.1 = true ↔
        "transaction_noop_test" ∈ tx_rollback true [] ([] ++ ["transaction_noop_test"])) :=
  noop_transactions_probe ⟨false, false⟩ true [] rfl (by simp)

/-- C10: on the legacy write/rollback path, starting from a table that
does not already contain the probe row, `noop_transactions` returns the
transactions-disabled flag and leaves the `Item` table exactly as it
was: the probe row is deleted before returning `True` and absent when
returning `False`, so no probe row survives the call. -/
theorem noop_transactions_frame (conn : Connection) (txNoop : Bool) (items : List String)
    (hleg : conn.has_in_atomic_block = false)
    (hfresh : "transaction_noop_test" ∉ items) :
    noop_transactions conn txNoop items = .ok (txNoop, items) := by
  unfold noop_transactions
  rw [hleg]
  have hf := filter_probe_eq_nil items hfresh
  have hne : ∀ b ∈ items, ¬((b == "transaction_noop_test") = true) := by
    intro b hb hEq
    exact hfresh ((eq_of_beq hEq) ▸ hb)
  cases txNoop
  · simp [tx_rollback, hf]
  · simp [tx_rollback, List.filter_append, hf, List.eraseP_append_right _ hne]

/-- Witness for C10: legacy path, a one-row table, transactions
disabled: the probe reports `True` and the table is unchanged. -/
theorem noop_transactions_frame_witness :
    noop_transactions ⟨false, false⟩ true ["an item"] = .ok (true, ["an item"]) :=
  noop_transactions_frame ⟨false, false⟩ true ["an item"] rfl (by simp)
